import Mathlib

/-
  Verification development for the LiFX node-server (src/lifx-poly.py).

  Shallow embedding conventions:
  - Python integers are modelled as Lean Int (unbounded, signed), matching
    Python semantics.  Booleans are Bool.  The connectivity flag is modelled
    as Nat because the source only ever assigns 0 or 1 to it and tests it
    by truthiness (connected != 0).
  - Each command handler is a pure function from the local device state
    (and the command inputs) to the new local state together with the list
    of device calls it issues.  Device writes are assumed to succeed (the
    source catches transport exceptions, logs, and continues); failing
    reads are modelled explicitly as Option inputs where a claim depends
    on them.  Logging, driver (dashboard) writes and timestamps are not
    modelled: they carry no state the claims talk about, except where a
    claim mentions notifications (reportCmd), which are modelled as an
    explicit output list.
  - Python list indexing (including negative indices) is modelled by
    pyGet / pySet returning Option; a None result corresponds to an
    IndexError that the source does not catch.
-/

namespace Lifx

/- Module-level constants, lines 21-25 of lifx-poly.py. -/

def BR_INCREMENT : Int := 2620
def BR_MIN : Int := 1310
def BR_MAX : Int := 65535
def FADE_INTERVAL : Int := 5000
def BRTDIM_INTERVAL : Int := 400

/-- HSBK color 4-tuple, stored in the source as a Python list
[hue, saturation, brightness, kelvin] (indices 0..3). -/
structure Color where
  hue : Int
  sat : Int
  bri : Int
  kelvin : Int
deriving DecidableEq, Repr

/-- The COLORS preset table, lines 38-51 of lifx-poly.py. -/
def COLORS : List (String × Color) :=
  [ ("RED", ⟨62978, 65535, 65535, 3500⟩)
  , ("ORANGE", ⟨5525, 65535, 65535, 3500⟩)
  , ("YELLOW", ⟨7615, 65535, 65535, 3500⟩)
  , ("GREEN", ⟨16173, 65535, 65535, 3500⟩)
  , ("CYAN", ⟨29814, 65535, 65535, 3500⟩)
  , ("BLUE", ⟨43634, 65535, 65535, 3500⟩)
  , ("PURPLE", ⟨50486, 65535, 65535, 3500⟩)
  , ("PINK", ⟨58275, 65535, 47142, 3500⟩)
  , ("WHITE", ⟨58275, 0, 65535, 5500⟩)
  , ("COLD_WHTE", ⟨58275, 0, 65535, 9000⟩)
  , ("WARM_WHITE", ⟨58275, 0, 65535, 3200⟩)
  , ("GOLD", ⟨58275, 0, 65535, 2500⟩)
  ]

/-- A call issued to the external lifxlan device client.  Only the
arguments relevant to the claims (colors, zone bounds, durations, power
values) are recorded; the rapid flag is dropped. -/
inductive DeviceCall where
  | set_color (c : Color) (duration : Int)
  | set_power (p : Bool)
  | set_zone_color (start_zone end_zone : Int) (c : Color) (duration : Int)
  | set_zone_colors (cs : List Color) (duration : Int)
  | set_tilechain_colors (cs : List (List Color)) (duration : Int)
  | set_tile_effect (effect_type : Int)
deriving DecidableEq, Repr

/-- Brightness component of a color-carrying device write, if any.
set_power and set_tile_effect calls carry no brightness. -/
def briOfCall : DeviceCall → Option Int
  | DeviceCall.set_color c _ => some c.bri
  | DeviceCall.set_zone_color _ _ c _ => some c.bri
  | DeviceCall.set_zone_colors _ _ => none
  | DeviceCall.set_tilechain_colors _ _ => none
  | DeviceCall.set_power _ => none
  | DeviceCall.set_tile_effect _ => none

/-- All brightness values written by a list of device calls. -/
def briWrites (calls : List DeviceCall) : List Int :=
  calls.filterMap briOfCall

/-- reportCmd notifications emitted during refresh. -/
inductive Notif where
  | DON
  | DOF
deriving DecidableEq, Repr

/-- Local mirror held by the Light class (lines 304-314): power mirror,
connectivity flag (int 0/1), color list mirror, default duration.
Fields not referenced by any claim (uptime, ir_support, lastupdate) are
omitted. -/
structure LightState where
  power : Bool
  connected : Nat
  color : Color
  duration : Int
deriving DecidableEq, Repr

/-- Clamp used in the DON-with-value branch of setOn (lines 419-422):
first the upper bound is applied, then the lower. -/
def clampBri (b : Int) : Int :=
  if b > BR_MAX then BR_MAX
  else if b < BR_MIN then BR_MIN
  else b

/-- Light._power_on_change (lines 399-408): if the change_pon flag is set
and the bulb is off, power it on. -/
def Light.power_on_change (change_pon : Bool) (s : LightState) :
    LightState × List DeviceCall :=
  if ¬ change_pon ∨ s.power then (s, [])
  else ({ s with power := true }, [DeviceCall.set_power true])

/-- The three shapes of on-commands reaching Light.setOn: DFON (force
full), DON with an explicit 0-255 value, DON without a value. -/
inductive OnCmd where
  | DFON
  | DONval (v : Int)
  | DON
deriving DecidableEq, Repr

/-- Light.setOn (lines 410-444).  The branch chain is modelled exactly:
DFON with brightness below max forces BR_MAX at zero transition; DON with
a value rescales 0-255 to 0-65535 (65535/255 = 257 exactly, so the
float round in the source yields v*257) and clamps; otherwise, if the
bulb is on and ignore_second_on is set the handler returns early without
even the set_power call; if the bulb is on below max it snaps to BR_MAX.
In all non-early-return cases set_power(True) follows. -/
def Light.setOn (ignore_second_on : Bool) (s : LightState) (cmd : OnCmd) :
    LightState × List DeviceCall :=
  let write := fun (nb trans : Int) =>
    let c := { s.color with bri := nb }
    ({ s with color := c, power := true },
      [DeviceCall.set_color c trans, DeviceCall.set_power true])
  match cmd with
  | OnCmd.DFON =>
    if s.color.bri ≠ BR_MAX then write BR_MAX 0
    else if s.power ∧ ignore_second_on then (s, [])
    else if s.power ∧ s.color.bri ≠ BR_MAX then write BR_MAX s.duration
    else ({ s with power := true }, [DeviceCall.set_power true])
  | OnCmd.DONval v =>
    write (clampBri (v * 257)) s.duration
  | OnCmd.DON =>
    if s.power ∧ ignore_second_on then (s, [])
    else if s.power ∧ s.color.bri ≠ BR_MAX then write BR_MAX s.duration
    else ({ s with power := true }, [DeviceCall.set_power true])

/-- Light.setOff (lines 446-453). -/
def Light.setOff (s : LightState) : LightState × List DeviceCall :=
  ({ s with power := false }, [DeviceCall.set_power false])

/-- Light.dim (lines 455-468).  Note the source only logs when the bulb
is off and then proceeds anyway (there is no return after the log). -/
def Light.dim (s : LightState) : LightState × List DeviceCall :=
  let nb := s.color.bri - BR_INCREMENT
  let nb := if nb < BR_MIN then BR_MIN else nb
  let c := { s.color with bri := nb }
  ({ s with color := c }, [DeviceCall.set_color c BRTDIM_INTERVAL])

/-- Light.brighten (lines 470-493): when off, turn on at BR_MIN;
otherwise step up by BR_INCREMENT clamped to BR_MAX. -/
def Light.brighten (s : LightState) : LightState × List DeviceCall :=
  if s.power = false then
    let c := { s.color with bri := BR_MIN }
    ({ s with color := c, power := true },
      [DeviceCall.set_color c 0, DeviceCall.set_power true])
  else
    let nb := s.color.bri + BR_INCREMENT
    let nb := if nb > BR_MAX then BR_MAX else nb
    let c := { s.color with bri := nb }
    ({ s with color := c }, [DeviceCall.set_color c BRTDIM_INTERVAL])

/-- Light.fade_up (lines 495-514): when off, first turn on at BR_MIN
(this is not a refusal); then refuse only if the mirrored brightness
equals BR_MAX, else fade to BR_MAX over FADE_INTERVAL. -/
def Light.fade_up (s : LightState) : LightState × List DeviceCall :=
  let r :=
    if s.power = false then
      let c := { s.color with bri := BR_MIN }
      ({ s with color := c, power := true },
        [DeviceCall.set_color c 0, DeviceCall.set_power true])
    else (s, ([] : List DeviceCall))
  let s1 := r.1
  if s1.color.bri = BR_MAX then (s1, r.2)
  else
    let c := { s1.color with bri := BR_MAX }
    ({ s1 with color := c }, r.2 ++ [DeviceCall.set_color c FADE_INTERVAL])

/-- Light.fade_down (lines 516-527): refuse when off or already at or
below BR_MIN, else fade to BR_MIN over FADE_INTERVAL. -/
def Light.fade_down (s : LightState) : LightState × List DeviceCall :=
  if s.power = false then (s, [])
  else if s.color.bri ≤ BR_MIN then (s, [])
  else
    let c := { s.color with bri := BR_MIN }
    ({ s with color := c }, [DeviceCall.set_color c FADE_INTERVAL])

/-- Light.fade_stop (lines 529-547): refuse when off; otherwise re-read
the color from the device (a failed read, modelled as none, keeps the old
mirror); refuse when the (possibly re-read) brightness is at either
bound; else re-issue the color with zero transition. -/
def Light.fade_stop (s : LightState) (freshRead : Option Color) :
    LightState × List DeviceCall :=
  if s.power = false then (s, [])
  else
    let s1 := match freshRead with
      | some c => { s with color := c }
      | none => s
    if s1.color.bri = BR_MIN ∨ s1.color.bri = BR_MAX then (s1, [])
    else (s1, [DeviceCall.set_color s1.color 0])

/-- Light.setColor (lines 549-561): guarded by the connectivity flag;
looks up the preset (an unknown id raises an uncaught KeyError, modelled
as none), writes it to the device with the default duration, then applies
the power-on policy.  The local color mirror is NOT updated (only the
dashboard drivers are). -/
def Light.setColor (change_pon : Bool) (s : LightState) (presetId : Nat) :
    Option (LightState × List DeviceCall) :=
  if s.connected ≠ 0 then
    match COLORS.get? presetId with
    | none => none
    | some pc =>
      let r := Light.power_on_change change_pon s
      some (r.1, [DeviceCall.set_color pc.2 s.duration] ++ r.2)
  else some (s, [])

/-- Single-field setter commands routed to Light.setManual. -/
inductive LManualCmd where
  | SETH
  | SETS
  | SETB
  | CLITEMP
  | RR
deriving DecidableEq, Repr

/-- Light.setManual (lines 563-590): guarded by the connectivity flag;
mutates one field of the color mirror (or the default duration for RR)
with NO clamping, re-issues the whole color with the (possibly updated)
duration, then applies the power-on policy. -/
def Light.setManual (change_pon : Bool) (s : LightState) (cmd : LManualCmd)
    (v : Int) : LightState × List DeviceCall :=
  if s.connected ≠ 0 then
    let s1 :=
      match cmd with
      | LManualCmd.SETH => { s with color := { s.color with hue := v } }
      | LManualCmd.SETS => { s with color := { s.color with sat := v } }
      | LManualCmd.SETB => { s with color := { s.color with bri := v } }
      | LManualCmd.CLITEMP => { s with color := { s.color with kelvin := v } }
      | LManualCmd.RR => { s with duration := v }
    let r := Light.power_on_change change_pon s1
    (r.1, [DeviceCall.set_color s1.color s1.duration] ++ r.2)
  else (s, [])

/-- Light.update (lines 330-361), fast refresh.  Takes the two device
read results as inputs (none = the read raised).  A failed color read
leaves the connectivity flag at 0 and returns before the power read.  A
successful power read compares the raw value against 65535, emits a
DON/DOF notification exactly when the mirror disagrees, then updates the
mirror.  Driver writes and the timestamp are not modelled. -/
def Light.update (s : LightState) (colorRead : Option Color)
    (powerRead : Option Int) : LightState × List Notif :=
  match colorRead with
  | none => ({ s with connected := 0 }, [])
  | some c =>
    let s1 : LightState := { s with connected := 1, color := c }
    match powerRead with
    | none => (s1, [])
    | some p =>
      let power_now : Bool := if p = 65535 then true else false
      let notifs : List Notif :=
        if s1.power ≠ power_now then
          [if power_now then Notif.DON else Notif.DOF]
        else []
      ({ s1 with power := power_now }, notifs)

/-- A sequence of fast-poll ticks on one bulb, each with both reads
succeeding; accumulates the notifications.  Models the external poll
scheduler calling Light.update repeatedly. -/
def pollRun (s : LightState) : List (Color × Int) → LightState × List Notif
  | [] => (s, [])
  | r :: rest =>
    let u := Light.update s (some r.1) (some r.2)
    let t := pollRun u.1 rest
    (t.1, u.2 ++ t.2)

/- MultiZone (lines 668-1034). -/

/-- The zone-cursor translation used by every MultiZone operation
(for example lines 679-680, 940-941): the cursor is copied and, when
nonzero, decremented to give the 0-based internal zone index. -/
def internalZone (z : Int) : Int :=
  if z ≠ 0 then z - 1 else z

/-- The whole-device test used to choose between device.set_color and
device.set_zone_color (for example line 959): cursor 0 means the whole
device. -/
def wholeDevice (z : Int) : Bool :=
  if z = 0 then true else false

/-- Python list indexing: a nonnegative index i is valid when i < n; a
negative index i addresses n + i when that is still nonnegative.  An
invalid index is an IndexError (none). -/
def pyIdx (n : Nat) (i : Int) : Option Nat :=
  if 0 ≤ i then
    if i < (n : Int) then some i.toNat else none
  else
    if 0 ≤ (n : Int) + i then some ((n : Int) + i).toNat else none

/-- Python list read l[i]. -/
def pyGet {α : Type} (l : List α) (i : Int) : Option α :=
  (pyIdx l.length i).bind (fun j => l.get? j)

/-- Python list write l[i] = v. -/
def pySet {α : Type} (l : List α) (i : Int) (v : α) : Option (List α) :=
  (pyIdx l.length i).map (fun j => l.set j v)

/-- Local mirror held by the MultiZone class (lines 669-675 on top of the
Light fields): the zone-array color mirror, the discovered zone count and
the selected-zone cursor.  The pending-batch fields (new_color, pending)
are omitted: no claim mentions setHSBKDZ or apply. -/
structure MZState where
  power : Bool
  connected : Nat
  color : List Color
  duration : Int
  num_zones : Int
  current_zone : Int
deriving DecidableEq, Repr

/-- Commands routed to MultiZone.setManual. -/
inductive MZCmd where
  | SETZ
  | SETH
  | SETS
  | SETB
  | CLITEMP
  | RR
deriving DecidableEq, Repr

/-- MultiZone.setManual (lines 931-968): guarded by the connectivity
flag.  SETZ stores the raw value into the cursor and resets it to 0 only
when it EXCEEDS num_zones (values below 0 are stored as-is).  The cursor
is then translated to the internal index, the targeted zone entry is
copied, one field is overwritten (RR instead updates the duration), the
entry is written back into the zone array, and a single-zone (cursor
nonzero) or whole-device (cursor 0) write is issued with the current
duration.  none models an IndexError escaping the handler (the except
clause catches only WorkflowException and TypeError). -/
def MultiZone.setManual (s : MZState) (cmd : MZCmd) (v : Int) :
    Option (MZState × List DeviceCall) :=
  if s.connected ≠ 0 then
    let s1 :=
      if cmd = MZCmd.SETZ then
        let cz := if v > s.num_zones then 0 else v
        { s with current_zone := cz }
      else s
    let zone := internalZone s1.current_zone
    match pyGet s1.color zone with
    | none => none
    | some zc =>
      let nc : Color :=
        match cmd with
        | MZCmd.SETH => { zc with hue := v }
        | MZCmd.SETS => { zc with sat := v }
        | MZCmd.SETB => { zc with bri := v }
        | MZCmd.CLITEMP => { zc with kelvin := v }
        | _ => zc
      let s2 := if cmd = MZCmd.RR then { s1 with duration := v } else s1
      match pySet s2.color zone nc with
      | none => none
      | some cols =>
        let s3 := { s2 with color := cols }
        let call :=
          if wholeDevice s3.current_zone then
            DeviceCall.set_color nc s3.duration
          else
            DeviceCall.set_zone_color zone zone nc s3.duration
        some (s3, [call])
  else some (s, [])

/-- MultiZone.setColor (lines 914-929): guarded by the connectivity flag;
writes the preset to the cursor zone (or the whole device for cursor 0).
The local zone-array mirror is NOT updated, only the dashboard drivers.
An unknown preset id raises an uncaught KeyError (none). -/
def MultiZone.setColor (s : MZState) (presetId : Nat) :
    Option (MZState × List DeviceCall) :=
  if s.connected ≠ 0 then
    match COLORS.get? presetId with
    | none => none
    | some pc =>
      let zone := internalZone s.current_zone
      let call :=
        if wholeDevice s.current_zone then
          DeviceCall.set_color pc.2 s.duration
        else
          DeviceCall.set_zone_color zone zone pc.2 s.duration
      some (s, [call])
  else some (s, [])

/-- The power block of MultiZone.update (lines 695-707): same
edge-triggered notification logic as Light.update, with the raw power
read compared against 65535. -/
def MultiZone.updatePower (mirror : Bool) (powerRead : Option Int) :
    Bool × List Notif :=
  match powerRead with
  | none => (mirror, [])
  | some p =>
    let power_now : Bool := if p = 65535 then true else false
    let notifs : List Notif :=
      if mirror ≠ power_now then
        [if power_now then Notif.DON else Notif.DOF]
      else []
    (power_now, notifs)

/- Discovery (Controller, lines 125-236). -/

/-- Outcome of reading and parsing the manual device list in
Controller._manual_discovery: the file failed to open, failed to parse,
parsed but had no bulbs section, or parsed with a bulbs section (here
reduced to the list of derived node addresses; group resolution does not
matter to any claim). -/
inductive ManualResult where
  | openFail
  | parseFail
  | missingBulbs
  | parsed (addresses : List String)
deriving DecidableEq, Repr

/-- The registry is the set of node addresses known to the hub, modelled
as a list; addNode appends.  getNode checks membership. -/
def registryAdd (reg : List String) (addr : String) : List String :=
  if addr ∈ reg then reg else reg ++ [addr]

/-- Controller._manual_discovery (lines 125-194).  The file-open failure
handler (line 129) references the misspelled attribute self.paramaters,
so its log call raises an uncaught AttributeError before the
`return False` line executes: that mode is modelled as none (an exception
escaping the method).  A parse failure or a missing bulbs section logs
and returns False before touching the registry; a parsed file adds a node
for every bulb address not already present and returns True. -/
def manualDiscovery (mr : ManualResult) (reg : List String) :
    Option (List String × Bool) :=
  match mr with
  | ManualResult.openFail => none
  | ManualResult.parseFail => some (reg, false)
  | ManualResult.missingBulbs => some (reg, false)
  | ManualResult.parsed addrs => some (addrs.foldl registryAdd reg, true)

/-- The automatic-enumeration loop of Controller._discovery_process
(lines 206-224): every device returned by lifxLan.get_lights() whose
address is unseen is added to the registry. -/
def autoAdd (reg : List String) (devices : List String) : List String :=
  devices.foldl registryAdd reg

/-- Controller._discovery_process (lines 196-236): when a devlist
parameter is configured, manual discovery runs first.  The call to
_manual_discovery sits outside any try block, so an exception escaping it
(the file-open failure mode) kills the discovery thread, modelled as
none: the registry stays as it was and get_lights is never reached.  On
manual success the thread returns without touching the network.  On a
manual failure that returns False the code logs Manual discovery failed
and FALLS THROUGH to the automatic get_lights enumeration (there is no
return statement on that branch).  A some result carries the final
registry and whether the automatic enumeration was attempted. -/
def discoveryProcess (devlistSet : Bool) (mr : ManualResult)
    (autoDevices : List String) (reg : List String) :
    Option (List String × Bool) :=
  if devlistSet then
    match manualDiscovery mr reg with
    | none => none
    | some m =>
      if m.2 then some (m.1, false)
      else some (autoAdd m.1 autoDevices, true)
  else some (autoAdd reg autoDevices, true)

/- Tile (lines 1037-1155). -/

/-- Association-list get modelling Python dict lookup. -/
def alGet {α β : Type} [DecidableEq α] : List (α × β) → α → Option β
  | [], _ => none
  | (k, w) :: rest, key => if k = key then some w else alGet rest key

/-- Association-list set modelling Python dict item assignment /
update: overwrite in place when the key exists, append otherwise. -/
def alSet {α β : Type} [DecidableEq α] : List (α × β) → α → β → List (α × β)
  | [], key, v => [(key, v)]
  | (k, w) :: rest, key, v =>
    if k = key then (key, v) :: rest else (k, w) :: alSet rest key v

/-- A per-tile color snapshot as returned by get_tilechain_colors: one
color list per tile. -/
abbrev TileColors := List (List Color)

/-- The persisted saved_tile_colors custom-data store: a dict from node
address to a dict from memory-slot string to snapshot. -/
abbrev TileStore := List (String × List (String × TileColors))

/-- Lookup of cust_data saved_tile_colors address slot, as performed by
Tile.recall_state (line 1095); a missing address or slot is a KeyError
caught by the handler. -/
def storeLookup (store : TileStore) (addr slot : String) :
    Option TileColors :=
  (alGet store addr).bind (fun inner => alGet inner slot)

/-- Tile.save_state (lines 1069-1082): a failed device read (none)
returns with the store untouched; otherwise the nested dict structure is
created as needed and the snapshot stored under (address, slot),
overwriting any previous entry. -/
def Tile.save_state (store : TileStore) (addr slot : String)
    (readColors : Option TileColors) : TileStore :=
  match readColors with
  | none => store
  | some cols =>
    let inner := (alGet store addr).getD []
    alSet store addr (alSet inner slot cols)

/-- Tile.recall_state (lines 1084-1102): when an effect is active, first
issue a stop-effect call and clear the local effect indicator; then look
up (address, slot) in the store — a missing entry is logged and the
handler returns with NO color write; otherwise write the saved snapshot
back with the default duration.  Returns the new effect indicator and
the device calls. -/
def Tile.recall_state (store : TileStore) (addr slot : String)
    (duration : Int) (effect : Int) : Int × List DeviceCall :=
  let stop :=
    if effect > 0 then ((0 : Int), [DeviceCall.set_tile_effect 0])
    else (effect, [])
  match storeLookup store addr slot with
  | none => (stop.1, stop.2)
  | some cols =>
    (stop.1, stop.2 ++ [DeviceCall.set_tilechain_colors cols duration])

/-- The tile-color writes among a list of device calls. -/
def tileWrites (calls : List DeviceCall) : List DeviceCall :=
  calls.filter (fun c =>
    match c with
    | DeviceCall.set_tilechain_colors _ _ => true
    | _ => false)

/- Concrete sample states used by witnesses and counterexamples. -/

/-- A connected, powered-on bulb at mid-range brightness. -/
def connLight : LightState :=
  { power := true, connected := 1, color := ⟨100, 200, 30000, 3500⟩, duration := 0 }

/-- A disconnected (connectivity flag 0) powered-on bulb. -/
def discLight : LightState :=
  { power := true, connected := 0, color := ⟨100, 200, 30000, 3500⟩, duration := 0 }

/-- A powered-off bulb whose mirrored brightness sits at BR_MAX. -/
def offMaxLight : LightState :=
  { power := false, connected := 1, color := ⟨5, 6, BR_MAX, 3500⟩, duration := 0 }

/-- A connected, powered-on bulb at BR_MAX. -/
def maxLight : LightState :=
  { power := true, connected := 1, color := ⟨5, 6, BR_MAX, 3500⟩, duration := 0 }

/-- A connected 4-zone MultiZone strip with distinct zone colors and the
cursor on the whole device. -/
def mzSample : MZState :=
  { power := true, connected := 1
  , color := [⟨10, 11, 12, 3500⟩, ⟨20, 21, 22, 3500⟩, ⟨30, 31, 32, 3500⟩, ⟨40, 41, 42, 3500⟩]
  , duration := 0, num_zones := 4, current_zone := 0 }

/-- A disconnected MultiZone strip. -/
def discMZ : MZState :=
  { power := true, connected := 0
  , color := [⟨10, 11, 12, 3500⟩, ⟨20, 21, 22, 3500⟩]
  , duration := 0, num_zones := 2, current_zone := 0 }

/- Claim C1. -/

/-- C1 counterexample: with a devlist configured and the manual device
list missing its bulbs section, the discovery cycle does NOT terminate:
the automatic get_lights enumeration is attempted (second component true)
and the registry gains the automatically discovered device. -/
theorem C1_counterexample :
    discoveryProcess true ManualResult.missingBulbs ["d073d5aabbcc"] [] =
      some (["d073d5aabbcc"], true) := by
  exact rfl

/-- C1 (amended): the three manual-failure modes do not behave alike.
When the manual device list is unparsable or missing its bulbs section,
_manual_discovery logs, returns False with the registry untouched, and
the cycle FALLS THROUGH to automatic network discovery in the same run:
get_lights is attempted and the registry may gain devices from the
automatic pass.  When the device-list file cannot be opened, the failure
handler itself raises on the misspelled attribute self.paramaters; the
exception escapes _manual_discovery and kills the discovery thread, so
for that mode no fall-through and no enumeration occurs and the registry
is unchanged — by crash, not by the clean abort the claim describes. -/
theorem C1_manual_failure_falls_through :
    (∀ (mr : ManualResult) (reg autoDevices : List String),
      mr = ManualResult.parseFail ∨ mr = ManualResult.missingBulbs →
      manualDiscovery mr reg = some (reg, false) ∧
      discoveryProcess true mr autoDevices reg =
        some (autoAdd reg autoDevices, true)) ∧
    (∀ (reg autoDevices : List String),
      manualDiscovery ManualResult.openFail reg = none ∧
      discoveryProcess true ManualResult.openFail autoDevices reg = none) := by
  constructor
  · intro mr reg autoDevices h
    rcases h with h | h <;> subst h <;> exact ⟨rfl, rfl⟩
  · intro reg autoDevices
    exact ⟨rfl, rfl⟩

/-- C1 witness: the amended theorem at concrete inputs: a missing bulbs
section falls through to the automatic pass, a file-open failure kills
the thread with the registry unchanged. -/
theorem C1_witness :
    (manualDiscovery ManualResult.missingBulbs ["aa"] = some (["aa"], false) ∧
      discoveryProcess true ManualResult.missingBulbs ["bb"] ["aa"] =
        some (["aa", "bb"], true)) ∧
    (manualDiscovery ManualResult.openFail ["aa"] = none ∧
      discoveryProcess true ManualResult.openFail ["bb"] ["aa"] = none) :=
  ⟨C1_manual_failure_falls_through.1 ManualResult.missingBulbs ["aa"] ["bb"]
      (Or.inr rfl),
   C1_manual_failure_falls_through.2 ["aa"] ["bb"]⟩

/- Claim C4. -/

/-- C4: zone index 0 selects the whole-device operation, any z greater
than 0 maps to internal 0-based index z-1, and this mapping is injective
on positive indices, so the internal index determines the external one. -/
theorem C4_zone_mapping :
    (wholeDevice 0 = true ∧ internalZone 0 = 0) ∧
    (∀ z : Int, 0 < z → wholeDevice z = false ∧ internalZone z = z - 1) ∧
    (∀ z w : Int, 0 < z → 0 < w → internalZone z = internalZone w → z = w) := by
  refine ⟨⟨rfl, rfl⟩, ?_, ?_⟩
  · intro z hz
    constructor
    · unfold wholeDevice
      rw [if_neg (by omega)]
    · unfold internalZone
      rw [if_pos (by omega)]
  · intro z w hz hw h
    unfold internalZone at h
    rw [if_pos (by omega), if_pos (by omega)] at h
    omega

/-- C4 witness: the mapping evaluated at zone index 3, and injectivity at
the pair (3, 3). -/
theorem C4_witness :
    (wholeDevice 3 = false ∧ internalZone 3 = 3 - 1) ∧ (3 : Int) = 3 :=
  ⟨C4_zone_mapping.2.1 3 (by norm_num),
   C4_zone_mapping.2.2 3 3 (by norm_num) (by norm_num) rfl⟩

/- Claim C5. -/

/-- C5: on a connected 4-zone MultiZone strip, SETZ 3 moves the cursor to
3 (issuing a single-zone write of zone 2 with its unchanged color), and a
subsequent SETB 40000 rewrites only internal zone index 2 of the zone
array via a single-zone device write targeting that zone; internal zones
0, 1 and 3 keep their colors. -/
theorem C5_setz_setb_scenario :
    MultiZone.setManual mzSample MZCmd.SETZ 3 =
      some ({ mzSample with current_zone := 3 },
        [DeviceCall.set_zone_color 2 2 ⟨30, 31, 32, 3500⟩ 0]) ∧
    MultiZone.setManual { mzSample with current_zone := 3 } MZCmd.SETB 40000 =
      some ({ mzSample with
              current_zone := 3,
              color := [⟨10, 11, 12, 3500⟩, ⟨20, 21, 22, 3500⟩,
                        ⟨30, 31, 40000, 3500⟩, ⟨40, 41, 42, 3500⟩] },
        [DeviceCall.set_zone_color 2 2 ⟨30, 31, 40000, 3500⟩ 0]) := by
  exact ⟨rfl, rfl⟩

/- Claim C6. -/

/-- Helper for C6: a poll whose power read agrees with the mirror emits
no notification and leaves the mirror where it is, so a run of stable
polls emits nothing. -/
theorem pollRun_stable (c : Color) (p : Int) (n : Nat) :
    ∀ s : LightState, s.power = (if p = 65535 then true else false) →
      (pollRun s (List.replicate n (c, p))).2 = [] ∧
      (pollRun s (List.replicate n (c, p))).1.power = s.power := by
  induction n with
  | zero => intro s h; exact ⟨rfl, rfl⟩
  | succ k ih =>
    intro s h
    have hstep : (Light.update s (some c) (some p)).2 = [] ∧
        (Light.update s (some c) (some p)).1.power = s.power := by
      constructor
      · simp [Light.update, h]
      · simp [Light.update, h]
    have hrest := ih (Light.update s (some c) (some p)).1
      (by rw [hstep.2, h])
    rw [List.replicate_succ]
    constructor
    · show ((Light.update s (some c) (some p)).2 ++
        (pollRun (Light.update s (some c) (some p)).1
          (List.replicate k (c, p))).2) = []
      rw [hstep.1, hrest.1]
      rfl
    · show (pollRun (Light.update s (some c) (some p)).1
        (List.replicate k (c, p))).1.power = s.power
      rw [hrest.2, hstep.2]

/-- C6: during a fast refresh with both reads succeeding, the power-change
notification (DON/DOF report) is emitted exactly when the freshly read
power value (interpreted as on when it equals 65535) differs from the
local power mirror, and the mirror is then set to the read value; the
same holds for the MultiZone power block.  Consequently, over any run of
polls all reading the same power value, no notification is emitted when
the mirror already agrees, and exactly one is emitted (at the first poll)
when it disagrees. -/
theorem C6_power_edge_trigger :
    (∀ (s : LightState) (c : Color) (p : Int),
      (Light.update s (some c) (some p)).1.power =
        (if p = 65535 then true else false) ∧
      ((Light.update s (some c) (some p)).2 = [] ↔
        s.power = (if p = 65535 then true else false))) ∧
    (∀ (m : Bool) (p : Int),
      (MultiZone.updatePower m (some p)).1 =
        (if p = 65535 then true else false) ∧
      ((MultiZone.updatePower m (some p)).2 = [] ↔
        m = (if p = 65535 then true else false))) ∧
    (∀ (s : LightState) (c : Color) (p : Int) (n : Nat),
      (s.power = (if p = 65535 then true else false) →
        (pollRun s (List.replicate n (c, p))).2 = []) ∧
      (s.power ≠ (if p = 65535 then true else false) → 1 ≤ n →
        (pollRun s (List.replicate n (c, p))).2.length = 1)) := by
  refine ⟨?_, ?_, ?_⟩
  · intro s c p
    constructor
    · rfl
    · by_cases h : s.power = (if p = 65535 then true else false)
      · simp [Light.update, h]
      · simp [Light.update, h]
  · intro m p
    constructor
    · rfl
    · by_cases h : m = (if p = 65535 then true else false)
      · simp [MultiZone.updatePower, h]
      · simp [MultiZone.updatePower, h]
  · intro s c p n
    constructor
    · intro h
      exact (pollRun_stable c p n s h).1
    · intro h hn
      obtain ⟨k, rfl⟩ : ∃ k, n = k + 1 := ⟨n - 1, by omega⟩
      have hstep : (Light.update s (some c) (some p)).2 =
          [if (if p = 65535 then true else false) then Notif.DON else Notif.DOF] ∧
          (Light.update s (some c) (some p)).1.power =
            (if p = 65535 then true else false) := by
        constructor
        · simp only [Light.update]
          rw [if_pos h]
        · rfl
      have hrest := pollRun_stable c p k (Light.update s (some c) (some p)).1
        hstep.2
      rw [List.replicate_succ]
      show ((Light.update s (some c) (some p)).2 ++
        (pollRun (Light.update s (some c) (some p)).1
          (List.replicate k (c, p))).2).length = 1
      rw [hstep.1, hrest.1]
      rfl

/-- C6 witness: a mirror that disagrees with three identical power reads
produces exactly one notification; a mirror that agrees produces none. -/
theorem C6_witness :
    (pollRun connLight (List.replicate 3 (⟨1, 2, 3, 3500⟩, 0))).2.length = 1 ∧
    (pollRun connLight (List.replicate 3 (⟨1, 2, 3, 3500⟩, 65535))).2 = [] :=
  ⟨(C6_power_edge_trigger.2.2 connLight ⟨1, 2, 3, 3500⟩ 0 3).2
      (by decide) (by norm_num),
   (C6_power_edge_trigger.2.2 connLight ⟨1, 2, 3, 3500⟩ 65535 3).1 (by decide)⟩

/- Claim C7. -/

/-- C7 counterexample: a powered-off bulb whose mirrored brightness is
already BR_MAX does NOT make fade_up refuse: the handler powers the bulb
on at BR_MIN (two device calls) and then issues the fade write to BR_MAX,
so the claim that fade_up refuses whenever brightness is already BR_MAX
fails. -/
theorem C7_counterexample :
    offMaxLight.color.bri = BR_MAX ∧
    (Light.fade_up offMaxLight).2 =
      [DeviceCall.set_color ⟨5, 6, BR_MIN, 3500⟩ 0, DeviceCall.set_power true,
       DeviceCall.set_color ⟨5, 6, BR_MAX, 3500⟩ FADE_INTERVAL] := by
  exact ⟨rfl, rfl⟩

/-- C7 (amended): fade_down refuses (no device call, state unchanged)
when the power mirror is off or the brightness is at or below BR_MIN;
fade_up refuses when the bulb is POWERED ON and its brightness is already
BR_MAX (when it is off, fade_up instead powers it on at BR_MIN and
fades); fade_stop refuses when the bulb is off (no call at all), and
when it is on and the re-read brightness equals BR_MIN or BR_MAX it
refuses the write, keeping only the mirror refresh from the re-read. -/
theorem C7_fade_refusals :
    (∀ s : LightState, s.power = false → Light.fade_down s = (s, [])) ∧
    (∀ s : LightState, s.power = true → s.color.bri ≤ BR_MIN →
      Light.fade_down s = (s, [])) ∧
    (∀ s : LightState, s.power = true → s.color.bri = BR_MAX →
      Light.fade_up s = (s, [])) ∧
    (∀ (s : LightState) (r : Option Color), s.power = false →
      Light.fade_stop s r = (s, [])) ∧
    (∀ (s : LightState) (c : Color), s.power = true →
      (c.bri = BR_MIN ∨ c.bri = BR_MAX) →
      Light.fade_stop s (some c) = ({ s with color := c }, [])) := by
  refine ⟨?_, ?_, ?_, ?_, ?_⟩
  · intro s h
    unfold Light.fade_down
    rw [if_pos h]
  · intro s hp h
    unfold Light.fade_down
    rw [if_neg (by simp [hp]), if_pos h]
  · intro s hp h
    unfold Light.fade_up
    rw [hp]
    simp [h]
  · intro s r h
    unfold Light.fade_stop
    rw [if_pos h]
  · intro s c hp h
    unfold Light.fade_stop
    rw [if_neg (by simp [hp])]
    simp [h]

/-- C7 witness: the refusal branches evaluated at concrete states: an
off bulb for fade_down, an on bulb at BR_MAX for fade_up, and an on bulb
whose re-read brightness is BR_MIN for fade_stop. -/
theorem C7_witness :
    Light.fade_down offMaxLight = (offMaxLight, []) ∧
    Light.fade_up maxLight = (maxLight, []) ∧
    Light.fade_stop connLight (some ⟨1, 1, BR_MIN, 3500⟩) =
      ({ connLight with color := ⟨1, 1, BR_MIN, 3500⟩ }, []) :=
  ⟨C7_fade_refusals.1 offMaxLight rfl,
   C7_fade_refusals.2.2.1 maxLight rfl rfl,
   C7_fade_refusals.2.2.2.2 connLight ⟨1, 1, BR_MIN, 3500⟩ rfl (Or.inl rfl)⟩

/- Claim C8. -/

/-- C8: on a powered-on bulb whose brightness b satisfies both
b - BR_INCREMENT at least BR_MIN and (after the first step) stepping back
up stays at most BR_MAX, dim followed by brighten returns the mirrored
brightness to its original value. -/
theorem C8_dim_then_brighten (s : LightState)
    (hp : s.power = true)
    (hlo : BR_MIN ≤ s.color.bri - BR_INCREMENT)
    (hhi : s.color.bri ≤ BR_MAX) :
    (Light.brighten (Light.dim s).1).1.color.bri = s.color.bri := by
  simp only [BR_MIN, BR_MAX, BR_INCREMENT] at hlo hhi
  have hd : (Light.dim s).1 =
      { s with color := { s.color with bri := s.color.bri - BR_INCREMENT } } := by
    simp only [Light.dim]
    rw [if_neg (by simp only [BR_MIN, BR_INCREMENT]; omega)]
  rw [hd]
  simp only [Light.brighten]
  rw [if_neg (by simp [hp])]
  show (if s.color.bri - BR_INCREMENT + BR_INCREMENT > BR_MAX then BR_MAX
      else s.color.bri - BR_INCREMENT + BR_INCREMENT) = s.color.bri
  rw [if_neg (by simp only [BR_MAX, BR_INCREMENT]; omega)]
  omega

/-- C8 witness: dim then brighten on the sample bulb at 30000 lands back
at 30000. -/
theorem C8_witness :
    (Light.brighten (Light.dim connLight).1).1.color.bri = 30000 :=
  C8_dim_then_brighten connLight rfl (by norm_num [connLight, BR_MIN, BR_INCREMENT])
    (by norm_num [connLight, BR_MAX])

/- Claim C9. -/

/-- Helper: reading back the key just written into an association list. -/
theorem alGet_alSet_same {α β : Type} [DecidableEq α]
    (m : List (α × β)) (k : α) (v : β) :
    alGet (alSet m k v) k = some v := by
  induction m with
  | nil => simp [alGet, alSet]
  | cons hd tl ih =>
    obtain ⟨k1, w1⟩ := hd
    by_cases h : k1 = k
    · simp [alSet, alGet, h]
    · simp [alSet, alGet, h, ih]

/-- Helper: writing one key leaves every other key unchanged. -/
theorem alGet_alSet_ne {α β : Type} [DecidableEq α]
    (m : List (α × β)) (k q : α) (v : β) (h : k ≠ q) :
    alGet (alSet m k v) q = alGet m q := by
  induction m with
  | nil => simp [alGet, alSet, h]
  | cons hd tl ih =>
    obtain ⟨k1, w1⟩ := hd
    by_cases h1 : k1 = k
    · subst h1
      simp [alSet, alGet, h]
    · simp [alSet, alGet, h1, ih]

/-- C9: a successful save_state to (address, slot) followed by
recall_state of the same (address, slot) — possibly with an intervening
save to a DIFFERENT (address, slot) — writes back to the device exactly
the per-tile color array read at save time; recall of a slot with no
saved entry issues no tile-color device write. -/
theorem C9_save_then_recall :
    (∀ (store : TileStore) (addr slot : String) (cols : TileColors)
        (dur eff : Int),
      tileWrites (Tile.recall_state (Tile.save_state store addr slot (some cols))
          addr slot dur eff).2 =
        [DeviceCall.set_tilechain_colors cols dur]) ∧
    (∀ (store : TileStore) (addr slot a2 s2 : String)
        (cols cols2 : TileColors) (dur eff : Int),
      a2 ≠ addr ∨ s2 ≠ slot →
      tileWrites (Tile.recall_state
          (Tile.save_state (Tile.save_state store addr slot (some cols))
            a2 s2 (some cols2))
          addr slot dur eff).2 =
        [DeviceCall.set_tilechain_colors cols dur]) ∧
    (∀ (store : TileStore) (addr slot : String) (dur eff : Int),
      storeLookup store addr slot = none →
      tileWrites (Tile.recall_state store addr slot dur eff).2 = []) := by
  refine ⟨?_, ?_, ?_⟩
  · intro store addr slot cols dur eff
    unfold Tile.recall_state
    have hl : storeLookup (Tile.save_state store addr slot (some cols))
        addr slot = some cols := by
      unfold Tile.save_state storeLookup
      rw [alGet_alSet_same]
      simp only [Option.some_bind]
      exact alGet_alSet_same _ _ _
    rw [hl]
    by_cases he : eff > 0 <;>
      simp [he, tileWrites, List.filter]
  · intro store addr slot a2 s2 cols cols2 dur eff hne
    unfold Tile.recall_state
    have hl : storeLookup (Tile.save_state
        (Tile.save_state store addr slot (some cols)) a2 s2 (some cols2))
        addr slot = some cols := by
      unfold Tile.save_state storeLookup
      rcases hne with hne | hne
      · rw [alGet_alSet_ne _ _ _ _ hne, alGet_alSet_same]
        simp only [Option.some_bind]
        exact alGet_alSet_same _ _ _
      · by_cases ha : a2 = addr
        · subst ha
          rw [alGet_alSet_same, alGet_alSet_same]
          simp only [Option.some_bind, Option.getD_some]
          rw [alGet_alSet_ne _ _ _ _ hne]
          exact alGet_alSet_same _ _ _
        · rw [alGet_alSet_ne _ _ _ _ ha, alGet_alSet_same]
          simp only [Option.some_bind]
          exact alGet_alSet_same _ _ _
    rw [hl]
    by_cases he : eff > 0 <;>
      simp [he, tileWrites, List.filter]
  · intro store addr slot dur eff h
    unfold Tile.recall_state
    rw [h]
    by_cases he : eff > 0 <;>
      simp [he, tileWrites, List.filter]

/-- C9 witness: save to slot 1, then save to slot 2, then recall slot 1
reproduces the snapshot saved to slot 1; recalling from an empty store
writes nothing. -/
theorem C9_witness :
    tileWrites (Tile.recall_state
        (Tile.save_state (Tile.save_state [] "aabb" "1" (some [[⟨1, 2, 3, 4⟩]]))
          "aabb" "2" (some [[⟨9, 9, 9, 9⟩]]))
        "aabb" "1" 7 1).2 = [DeviceCall.set_tilechain_colors [[⟨1, 2, 3, 4⟩]] 7] ∧
    tileWrites (Tile.recall_state [] "cc" "1" 0 0).2 = [] :=
  ⟨C9_save_then_recall.2.1 [] "aabb" "1" "aabb" "2" [[⟨1, 2, 3, 4⟩]]
      [[⟨9, 9, 9, 9⟩]] 7 1 (Or.inr (by decide)),
   C9_save_then_recall.2.2 [] "cc" "1" 0 0 rfl⟩

/- Claim C10. -/

/-- C10 counterexample: SETZ with the negative value -1 on a connected
4-zone strip stores the out-of-range cursor -1 (the source only guards
the upper bound), so the cursor is NOT always in the range from 0 to
num_zones after a setManual command. -/
theorem C10_counterexample :
    (MultiZone.setManual mzSample MZCmd.SETZ (-1)).map (fun r => r.1.current_zone) =
      some (-1) ∧
    ¬ (0 ≤ (-1 : Int) ∧ (-1 : Int) ≤ mzSample.num_zones) := by
  constructor
  · rfl
  · intro h
    exact absurd h.1 (by norm_num)

/-- C10 (amended): for SETZ values v with v at least 0, on a connected
strip with a nonnegative zone count, the stored cursor lands in the range
from 0 to num_zones (values exceeding the zone count reset it to 0); a
non-SETZ setManual command never moves the cursor.  A negative SETZ value
is stored unchecked, outside that range. -/
theorem C10_amended :
    (∀ (s : MZState) (v : Int) (out : MZState × List DeviceCall),
      0 ≤ v → 0 ≤ s.num_zones → s.connected ≠ 0 →
      MultiZone.setManual s MZCmd.SETZ v = some out →
      0 ≤ out.1.current_zone ∧ out.1.current_zone ≤ s.num_zones) ∧
    (∀ (s : MZState) (cmd : MZCmd) (v : Int) (out : MZState × List DeviceCall),
      cmd ≠ MZCmd.SETZ →
      MultiZone.setManual s cmd v = some out →
      out.1.current_zone = s.current_zone) := by
  constructor
  · intro s v out hv hn hc h
    unfold MultiZone.setManual at h
    rw [if_pos hc] at h
    simp only [eq_self_iff_true, reduceCtorEq, if_true, if_false] at h
    by_cases hgt : v > s.num_zones
    · rw [if_pos hgt] at h
      split at h
      · exact absurd h (by simp)
      · split at h
        · exact absurd h (by simp)
        · injection h with h2
          rw [← h2]
          constructor <;> simp <;> omega
    · rw [if_neg hgt] at h
      split at h
      · exact absurd h (by simp)
      · split at h
        · exact absurd h (by simp)
        · injection h with h2
          rw [← h2]
          constructor <;> simp <;> omega
  · intro s cmd v out hne h
    unfold MultiZone.setManual at h
    by_cases hc : s.connected ≠ 0
    · rw [if_pos hc, if_neg hne] at h
      cases cmd <;>
        first
        | exact absurd rfl hne
        | · simp only [eq_self_iff_true, reduceCtorEq, if_true, if_false] at h
            split at h
            · exact absurd h (by simp)
            · split at h
              · exact absurd h (by simp)
              · injection h with h2
                rw [← h2]
    · rw [if_neg hc] at h
      injection h with h2
      rw [← h2]

/- Claim C2. -/

/-- C2 counterexample: on a bulb whose connectivity flag is 0, the dim
command still issues a device write and still lowers the local
brightness mirror, setOff still issues a power write, and DFON still
issues writes — contradicting the claim that every command other than
re-query refuses to act while disconnected. -/
theorem C2_counterexample :
    discLight.connected = 0 ∧
    (Light.dim discLight).2 =
      [DeviceCall.set_color ⟨100, 200, 27380, 3500⟩ BRTDIM_INTERVAL] ∧
    (Light.dim discLight).1.color.bri = 27380 ∧
    discLight.color.bri = 30000 ∧
    (Light.setOff discLight).2 = [DeviceCall.set_power false] ∧
    (Light.setOn false discLight OnCmd.DFON).2 =
      [DeviceCall.set_color ⟨100, 200, 65535, 3500⟩ 0, DeviceCall.set_power true] := by
  exact ⟨rfl, rfl, rfl, rfl, rfl, rfl⟩

/-- C2 (amended): only the preset-color command (SET_COLOR) and the
single-field setter commands (SETH, SETS, SETB, CLITEMP, RR, and SETZ on
MultiZone) check the connectivity flag: those handlers are no-ops with no
device call while the flag is 0.  The remaining commands (setOn, setOff,
dim, brighten, the fades, setHSBKD, waveform, infrared) act regardless
of connectivity. -/
theorem C2_connectivity_guard (change_pon : Bool) (s : LightState)
    (ms : MZState) (presetId : Nat) (lcmd : LManualCmd) (mcmd : MZCmd)
    (v : Int) (hs : s.connected = 0) (hm : ms.connected = 0) :
    Light.setColor change_pon s presetId = some (s, []) ∧
    Light.setManual change_pon s lcmd v = (s, []) ∧
    MultiZone.setManual ms mcmd v = some (ms, []) ∧
    MultiZone.setColor ms presetId = some (ms, []) := by
  unfold Light.setColor Light.setManual MultiZone.setManual MultiZone.setColor
  simp [hs, hm]

/-- C2 witness: the amended guard evaluated on concrete disconnected
devices. -/
theorem C2_witness :
    Light.setColor false discLight 0 = some (discLight, []) ∧
    Light.setManual false discLight LManualCmd.SETB 123 = (discLight, []) ∧
    MultiZone.setManual discMZ MZCmd.SETB 123 = some (discMZ, []) ∧
    MultiZone.setColor discMZ 0 = some (discMZ, []) :=
  C2_connectivity_guard false discLight discMZ 0 LManualCmd.SETB MZCmd.SETB 123
    rfl rfl

/- Claim C3. -/

/-- C3 counterexample: the SETB single-field setter performs NO clamping:
on a connected bulb, SETB with value 0 writes brightness 0 to the device,
below BR_MIN, contradicting the claim that every brightness write lies in
the range from BR_MIN to BR_MAX. -/
theorem C3_counterexample :
    briWrites (Light.setManual false connLight LManualCmd.SETB 0).2 = [0] ∧
    (0 : Int) < BR_MIN := by
  constructor
  · rfl
  · norm_num [BR_MIN]

/-- C3 (amended): the brightness values written by setOn (all variants),
dim, brighten, fade_up and fade_down all lie in the range from BR_MIN to
BR_MAX, provided the mirrored brightness is itself in the device range 0
to BR_MAX; the SETB single-field setter is excluded because it writes its
raw argument unclamped. -/
theorem C3_clamped_brightness_writes (ignore_second_on : Bool)
    (s : LightState) (cmd : OnCmd)
    (h0 : 0 ≤ s.color.bri) (h1 : s.color.bri ≤ BR_MAX) :
    (∀ b ∈ briWrites (Light.setOn ignore_second_on s cmd).2,
      BR_MIN ≤ b ∧ b ≤ BR_MAX) ∧
    (∀ b ∈ briWrites (Light.dim s).2, BR_MIN ≤ b ∧ b ≤ BR_MAX) ∧
    (∀ b ∈ briWrites (Light.brighten s).2, BR_MIN ≤ b ∧ b ≤ BR_MAX) ∧
    (∀ b ∈ briWrites (Light.fade_up s).2, BR_MIN ≤ b ∧ b ≤ BR_MAX) ∧
    (∀ b ∈ briWrites (Light.fade_down s).2, BR_MIN ≤ b ∧ b ≤ BR_MAX) := by
  simp only [BR_MAX] at h1
  refine ⟨?_, ?_, ?_, ?_, ?_⟩
  · cases cmd <;>
      simp only [Light.setOn, clampBri, BR_MAX, BR_MIN] <;>
      split_ifs <;>
      simp [briWrites, briOfCall, List.filterMap] <;>
      omega
  · simp only [Light.dim, BR_MIN, BR_MAX, BR_INCREMENT, BRTDIM_INTERVAL]
    split_ifs <;> simp [briWrites, briOfCall, List.filterMap] <;> omega
  · simp only [Light.brighten, BR_MIN, BR_MAX, BR_INCREMENT, BRTDIM_INTERVAL]
    split_ifs <;> simp [briWrites, briOfCall, List.filterMap] <;> omega
  · simp only [Light.fade_up, BR_MIN, BR_MAX, FADE_INTERVAL]
    split_ifs <;> simp [briWrites, briOfCall, List.filterMap]
  · simp only [Light.fade_down, BR_MIN, BR_MAX, FADE_INTERVAL]
    split_ifs <;> simp [briWrites, briOfCall, List.filterMap]

/-- C3 witness: the amended theorem applied to the sample bulb; the DON
branch snaps an already-on bulb to BR_MAX = 65535, which is in range. -/
theorem C3_witness : BR_MIN ≤ (65535 : Int) ∧ (65535 : Int) ≤ BR_MAX :=
  (C3_clamped_brightness_writes false connLight OnCmd.DON
    (by norm_num [connLight]) (by norm_num [connLight, BR_MAX])).1
    65535 (by decide)

/-- C10 witness: the amended theorem evaluated at the sample strip:
SETZ 2 keeps the cursor in range. -/
theorem C10_witness :
    0 ≤ (2 : Int) ∧ (2 : Int) ≤ mzSample.num_zones :=
  C10_amended.1 mzSample 2 ({ mzSample with current_zone := 2 },
    [DeviceCall.set_zone_color 1 1 ⟨20, 21, 22, 3500⟩ 0])
    (by norm_num) (by decide) (by decide) (by rfl)

end Lifx
